import Mathlib

/-!
Verification of the marimo-cad shape-serialization and sync-channel layer,
a shallow embedding of src/marimo_cad/widget.py.

The serializer side embeds the module-level helpers of widget.py:
COLORS, the color resolver, the PartSpec / sequence discriminators,
the per-item unpacker, and the batch serialization entry point.
The external tessellator (to_viewer_format, from marimo_cad.tessellate,
an external collaborator per the spec) is a parameter of type Tessellator;
raising an exception is modelled as returning an error value.

The sync-channel side embeds the internal widget class: its constructor,
its custom-message handler (the readiness signal), and set_shapes.
Transmissions (send_state calls pushing shapes_data to the consumer) are
modelled as the list of payloads emitted by each transition.
-/

namespace MarimoCad

/-- A Python runtime value, restricted to the shapes of data the serializer
inspects: opaque geometry objects (identified by a numeric tag), strings,
mappings (only the four keys the code ever reads are modelled: shape, name,
color, alpha), lists, tuples, iterators (objects exposing both the iter and
the next attribute, e.g. generators), and sets (iterable containers that do
not expose the next attribute). Alpha floats are modelled as rationals; the
code only passes them through, never computes with them. -/
inductive PyVal where
  | shape : Nat → PyVal
  | str : String → PyVal
  | dict : Option PyVal → Option String → Option String → Option Rat → PyVal
  | list : List PyVal → PyVal
  | tuple : List PyVal → PyVal
  | iter : List PyVal → PyVal
  | pyset : List PyVal → PyVal

/-- The wire payload. The empty mapping sentinel is distinct from an
explicit parts list; the individual part records produced by the external
tessellator are opaque here and carried as numeric tags. -/
inductive Payload where
  | empty : Payload
  | parts : List Nat → Payload
deriving DecidableEq

/-- The static name-to-hex color table (COLORS in widget.py). -/
def COLORS : List (String × String) :=
  [(r"blue", r"#4a90d9"), (r"red", r"#e85454"), (r"green", r"#50e850"),
   (r"yellow", r"#e8b024"), (r"orange", r"#e87824"), (r"purple", r"#b024e8"),
   (r"cyan", r"#24e8b0"), (r"pink", r"#e824b0"), (r"gray", r"#888888"),
   (r"white", r"#ffffff"), (r"black", r"#333333")]

/-- Python dict.get with a default, on a literal table with distinct keys. -/
def dictGet : List (String × String) → String → Option String
  | [], _ => none
  | (k, v) :: rest, key => if key = k then some v else dictGet rest key

/-- Python str.lower; every key in COLORS is plain ASCII. -/
def lowerStr (s : String) : String := ⟨s.data.map Char.toLower⟩

/-- _resolve_color: None passes through; otherwise look the lowercased
name up in COLORS, defaulting to the original string. -/
def resolve_color : Option String → Option String
  | none => none
  | some color => some ((dictGet COLORS (lowerStr color)).getD color)

/-- _is_part_spec: isinstance(item, dict) and the shape key is present. -/
def is_part_spec : PyVal → Bool
  | .dict s _ _ _ => s.isSome
  | _ => false

/-- isinstance(item, (list, tuple)). -/
def isListOrTuple : PyVal → Bool
  | .list _ => true
  | .tuple _ => true
  | _ => false

/-- hasattr(item, the iter attribute): every modelled container, mapping and
string is iterable; only opaque geometry objects are not. -/
def hasAttrIter : PyVal → Bool
  | .shape _ => false
  | _ => true

/-- hasattr(item, the next attribute): only iterator objects expose it;
lists, tuples, mappings, strings and sets do not. -/
def hasAttrNext : PyVal → Bool
  | .iter _ => true
  | _ => false

/-- _is_sequence_of_parts: lists and tuples qualify, as does any object
exposing both the iter and the next attribute; everything else does not. -/
def is_sequence_of_parts (item : PyVal) : Bool :=
  if isListOrTuple item then true
  else if hasAttrIter item && hasAttrNext item then true
  else false

/-- The Python list(...) conversion, used by the serializer only on values
that passed is_sequence_of_parts (lists, tuples, iterators); the remaining
branches are unreachable from the serializer. -/
def pyListOf : PyVal → List PyVal
  | .list xs => xs
  | .tuple xs => xs
  | .iter xs => xs
  | .pyset xs => xs
  | v => [v]

/-- _unpack: a PartSpec mapping is split into its shape, name, resolved
color and alpha; any other value is a bare shape with no metadata. The
first branch applies exactly when is_part_spec holds. -/
def unpack : PyVal → PyVal × Option String × Option String × Option Rat
  | .dict (some s) name color alpha => (s, name, resolve_color color, alpha)
  | item => (item, none, none, none)

/-- The external tessellator to_viewer_format: takes the batched shapes and
the parallel name/color/alpha lists; an error value models a raised
exception. -/
abbrev Tessellator :=
  List PyVal → List (Option String) → List (Option String) → List (Option Rat) →
    Except String Payload

/-- The input-normalization step of _tessellate (lines 77 to 80 of
widget.py): a PartSpec, or anything that is not a sequence of parts, is
wrapped as a singleton; otherwise the input is expanded into its elements. -/
def normalizedItems (parts : PyVal) : List PyVal :=
  if is_part_spec parts || !is_sequence_of_parts parts then [parts]
  else pyListOf parts

/-- _tessellate: normalize the input, unpack each item, short-circuit to the
empty sentinel when nothing remains, otherwise invoke the tessellator once
on the batch, recovering from an exception by returning the empty
sentinel. -/
def tessellate (tess : Tessellator) (parts : PyVal) : Payload :=
  let items := normalizedItems parts
  let objects := items.map unpack
  if objects.isEmpty then Payload.empty
  else
    match tess (objects.map fun o => o.1) (objects.map fun o => o.2.1)
        (objects.map fun o => o.2.2.1) (objects.map fun o => o.2.2.2) with
    | Except.ok p => p
    | Except.error _ => Payload.empty

/-- The mutable state of one widget connection: shapes_data is the synced
current payload, pending is the deferred payload buffer, ready is the
consumer-readiness flag. -/
structure WidgetState where
  shapes_data : Payload
  pending : Option Payload
  ready : Bool
deriving DecidableEq

/-- The freshly constructed widget: the constructor leaves the pending
buffer at None and the readiness flag false; the viewer constructor then
assigns the empty mapping to shapes_data. -/
def initWidget : WidgetState :=
  { shapes_data := Payload.empty, pending := none, ready := false }

/-- set_shapes: when the consumer is ready, assign shapes_data and transmit
it; otherwise buffer the payload in pending and assign shapes_data without
transmitting. The returned list holds the payloads pushed to the consumer
by this call. -/
def set_shapes (st : WidgetState) (data : Payload) : WidgetState × List Payload :=
  if st.ready then ({ st with shapes_data := data }, [data])
  else ({ st with shapes_data := data, pending := some data }, [])

/-- _on_custom_msg: on a ready-typed message, set the readiness flag; if a
payload is buffered, move it into shapes_data, clear the buffer and
transmit it. Any other message leaves the state untouched. -/
def on_custom_msg (st : WidgetState) (msgType : String) : WidgetState × List Payload :=
  if msgType = "ready" then
    match st.pending with
    | some p => ({ st with ready := true, shapes_data := p, pending := none }, [p])
    | none => ({ st with ready := true }, [])
  else (st, [])

/-- The consumer readiness signal: a custom message of type ready. -/
def on_ready (st : WidgetState) : WidgetState × List Payload :=
  on_custom_msg st (r"ready")

/-- Viewer.render: serialize the shapes, then hand the payload to
set_shapes unconditionally. -/
def render (tess : Tessellator) (st : WidgetState) (shapes : PyVal) :
    WidgetState × List Payload :=
  set_shapes st (tessellate tess shapes)

/-- A tessellator that raises on every batch. -/
def failTess : Tessellator := fun _ _ _ _ => Except.error (r"boom")

/-- A tessellator that succeeds on every batch, returning one opaque part
record per input shape (so the part count always matches the batch size,
and an invoked call on an empty batch would return an explicit empty parts
list, not the sentinel). -/
def okTess : Tessellator := fun s _ _ _ => Except.ok (Payload.parts (s.map fun _ => 0))

theorem tessellateErrAux (tess : Tessellator) (parts : PyVal)
    (h : ∀ s n c a, ∃ msg, tess s n c a = Except.error msg) :
    tessellate tess parts = Payload.empty := by
  simp only [tessellate]
  split
  · rfl
  · obtain ⟨msg, hm⟩ := h _ _ _ _
    rw [hm]

theorem tessellateEmptyAux (tess : Tessellator) (v : PyVal)
    (h : normalizedItems v = []) :
    tessellate tess v = Payload.empty := by
  simp [tessellate, h]

/-- A connection state displaying a non-empty scene, consumer not ready. -/
def shownState : WidgetState :=
  { shapes_data := Payload.parts [7], pending := none, ready := false }

/-- A connection state reached by an actual history: construction, the
readiness signal, then a successful non-empty render. The consumer is ready
and a non-empty scene is displayed. -/
def readyShown : WidgetState :=
  (render okTess (on_ready initWidget).1 (PyVal.shape 7)).1

/-- Claim C1: whenever the external tessellation function raises on the
batch, the serializer returns the empty sentinel payload, and no exception
propagates (the embedded serializer is a total function into Payload). -/
theorem tessellate_failure_returns_empty (tess : Tessellator) (parts : PyVal)
    (h : ∀ s n c a, ∃ msg, tess s n c a = Except.error msg) :
    tessellate tess parts = Payload.empty :=
  tessellateErrAux tess parts h

/-- Witness for C1: a concretely failing tessellator on a concrete shape. -/
theorem tessellate_failure_returns_empty_witness :
    tessellate failTess (PyVal.shape 0) = Payload.empty :=
  tessellate_failure_returns_empty failTess (PyVal.shape 0)
    (fun _ _ _ _ => ⟨_, rfl⟩)

/-- Claim C2 counterexample: with a non-empty scene displayed and the
consumer not ready, a render whose tessellation fails does not leave the
channel state unchanged: shapes_data and the pending buffer are both
overwritten (with the empty sentinel). -/
theorem failed_render_overwrites_state :
    (∃ msg, failTess [] [] [] [] = Except.error msg) ∧
    (render failTess shownState (PyVal.shape 0)).1.shapes_data ≠ shownState.shapes_data ∧
    (render failTess shownState (PyVal.shape 0)).1.pending ≠ shownState.pending := by
  exact ⟨⟨_, rfl⟩, by decide, by decide⟩

/-- Claim C2 (amended): a render whose tessellation fails propagates no
exception, but it does not preserve the channel state: it overwrites
shapes_data with the empty sentinel, and either transmits the sentinel
(consumer ready) or overwrites the pending buffer with it (consumer not
ready). -/
theorem failed_render_delivers_sentinel (tess : Tessellator) (st : WidgetState)
    (shapes : PyVal) (h : ∀ s n c a, ∃ msg, tess s n c a = Except.error msg) :
    render tess st shapes =
      (if st.ready then ({ st with shapes_data := Payload.empty }, [Payload.empty])
       else ({ st with
               shapes_data := Payload.empty
               pending := some Payload.empty }, [])) := by
  unfold render
  rw [tessellateErrAux tess shapes h]
  rfl

/-- Witness for the amended C2: the concrete failing render buffers the
sentinel and overwrites the displayed payload. -/
theorem failed_render_delivers_sentinel_witness :
    render failTess shownState (PyVal.shape 0) =
      ({ shownState with
         shapes_data := Payload.empty
         pending := some Payload.empty }, []) :=
  (failed_render_delivers_sentinel failTess shownState (PyVal.shape 0)
    (fun _ _ _ _ => ⟨_, rfl⟩)).trans (by decide)

/-- Claim C8: any input whose normalization is empty serializes to the
empty sentinel for every tessellator whatsoever, so the external
tessellation function is never invoked (the result does not depend on
it). -/
theorem serialize_empty_input_short_circuits (tess : Tessellator) (v : PyVal)
    (h : normalizedItems v = []) :
    tessellate tess v = Payload.empty :=
  tessellateEmptyAux tess v h

/-- Witness for C8: serializing the empty list short-circuits even under a
tessellator that, had it been invoked on the empty batch, would have
returned the explicit empty parts list rather than the sentinel. -/
theorem serialize_empty_input_short_circuits_witness :
    tessellate okTess (PyVal.list []) = Payload.empty ∧
    okTess [] [] [] [] = Except.ok (Payload.parts []) :=
  ⟨serialize_empty_input_short_circuits okTess (PyVal.list []) rfl, rfl⟩

/-- Claim C3 counterexample: after a real history ending in a successful
non-empty render with the consumer ready, rendering the empty list
transmits the empty sentinel, not the explicit empty parts list. -/
theorem render_empty_list_transmits_sentinel_ce :
    readyShown.shapes_data = Payload.parts [0] ∧
    (render okTess readyShown (PyVal.list [])).2 = [Payload.empty] ∧
    (render okTess readyShown (PyVal.list [])).2 ≠ [Payload.parts []] := by
  exact ⟨by decide, by decide, by decide⟩

/-- Claim C3 (amended): after a prior render with the consumer ready,
rendering the empty list transmits exactly one payload, the empty sentinel
(the serializer short-circuits an empty normalized input to the sentinel),
and shapes_data becomes the sentinel; the scene is cleared by the sentinel
rather than by an explicit empty parts list. -/
theorem render_empty_list_transmits_sentinel (tess : Tessellator)
    (st : WidgetState) (h : st.ready = true) :
    (render tess st (PyVal.list [])).2 = [Payload.empty] ∧
    (render tess st (PyVal.list [])).1.shapes_data = Payload.empty := by
  unfold render
  rw [tessellateEmptyAux tess (PyVal.list []) rfl]
  simp [set_shapes, h]

/-- Witness for the amended C3 at the concrete post-render ready state. -/
theorem render_empty_list_transmits_sentinel_witness :
    (render okTess readyShown (PyVal.list [])).2 = [Payload.empty] ∧
    (render okTess readyShown (PyVal.list [])).1.shapes_data = Payload.empty :=
  render_empty_list_transmits_sentinel okTess readyShown (by decide)

/-- Claim C4: from any state with the consumer not ready, delivering payload
A and then payload B and then receiving the readiness signal causes exactly
one transmission in total, and it carries B (the buffer keeps only the
latest payload); afterwards the pending buffer is cleared. -/
theorem latest_payload_wins (st : WidgetState) (A B : Payload)
    (h : st.ready = false) :
    (set_shapes st A).2 = [] ∧
    (set_shapes (set_shapes st A).1 B).2 = [] ∧
    (on_ready (set_shapes (set_shapes st A).1 B).1).2 = [B] ∧
    (on_ready (set_shapes (set_shapes st A).1 B).1).1.pending = none := by
  simp [set_shapes, on_ready, on_custom_msg, h]

/-- Witness for C4 on the freshly constructed widget with two distinct
concrete payloads. -/
theorem latest_payload_wins_witness :
    (set_shapes initWidget (Payload.parts [1])).2 = [] ∧
    (set_shapes (set_shapes initWidget (Payload.parts [1])).1 (Payload.parts [2])).2 = [] ∧
    (on_ready (set_shapes (set_shapes initWidget (Payload.parts [1])).1 (Payload.parts [2])).1).2
      = [Payload.parts [2]] ∧
    (on_ready (set_shapes (set_shapes initWidget (Payload.parts [1])).1 (Payload.parts [2])).1).1.pending
      = none :=
  latest_payload_wins initWidget (Payload.parts [1]) (Payload.parts [2]) rfl

/-- Claim C5: the readiness handler is idempotent. After one readiness
signal the flag is set and the buffer is cleared; a second signal transmits
nothing and leaves the state exactly as it was (and, the handler being a
total function, it throws nothing). -/
theorem on_ready_idempotent (st : WidgetState) :
    (on_ready (on_ready st).1).2 = [] ∧
    (on_ready (on_ready st).1).1 = (on_ready st).1 ∧
    (on_ready st).1.ready = true ∧
    (on_ready st).1.pending = none := by
  obtain ⟨sd, pd, rd⟩ := st
  cases pd <;> simp [on_ready, on_custom_msg]

/-- Claim C6 counterexample: a set of two shapes is iterable and is not a
PartSpec, yet the serializer does not expand it into its elements: it wraps
the whole set as one singleton item, so the batch holds one object (and a
per-shape tessellator sees one part), not two. -/
theorem iterable_set_not_expanded :
    hasAttrIter (PyVal.pyset [PyVal.shape 1, PyVal.shape 2]) = true ∧
    is_part_spec (PyVal.pyset [PyVal.shape 1, PyVal.shape 2]) = false ∧
    normalizedItems (PyVal.pyset [PyVal.shape 1, PyVal.shape 2]) =
      [PyVal.pyset [PyVal.shape 1, PyVal.shape 2]] ∧
    normalizedItems (PyVal.pyset [PyVal.shape 1, PyVal.shape 2]) ≠
      pyListOf (PyVal.pyset [PyVal.shape 1, PyVal.shape 2]) ∧
    tessellate okTess (PyVal.pyset [PyVal.shape 1, PyVal.shape 2]) =
      Payload.parts [0] := by
  refine ⟨rfl, rfl, rfl, ?_, rfl⟩
  intro h
  have hl := congrArg List.length h
  simp [normalizedItems, is_part_spec, is_sequence_of_parts, isListOrTuple,
    hasAttrIter, hasAttrNext, pyListOf] at hl

/-- Claim C6 (amended): a mapping with a shape key is always one PartSpec;
lists, tuples, and iterator objects (exposing both the iter and the next
attribute) that are not PartSpecs are expanded into their elements; every
other value — including iterables that lack the next attribute, such as
sets, strings, and mappings without a shape key — is wrapped as a singleton
item. -/
theorem normalization_dispatch (v : PyVal) :
    (is_part_spec v = true → normalizedItems v = [v]) ∧
    (is_part_spec v = false → is_sequence_of_parts v = true →
      normalizedItems v = pyListOf v) ∧
    (is_part_spec v = false → is_sequence_of_parts v = false →
      normalizedItems v = [v]) ∧
    (is_sequence_of_parts v = true ↔
      (isListOrTuple v = true ∨ (hasAttrIter v = true ∧ hasAttrNext v = true))) := by
  refine ⟨?_, ?_, ?_, ?_⟩
  · intro h; simp [normalizedItems, h]
  · intro h1 h2; simp [normalizedItems, h1, h2]
  · intro h1 h2; simp [normalizedItems, h1, h2]
  · cases v <;> simp [is_sequence_of_parts, isListOrTuple, hasAttrIter, hasAttrNext]

/-- Witness for the amended C6: a concrete PartSpec mapping is kept as one
item even though mappings are iterable. -/
theorem normalization_dispatch_witness :
    normalizedItems (PyVal.dict (some (PyVal.shape 0)) none none none) =
      [PyVal.dict (some (PyVal.shape 0)) none none none] :=
  (normalization_dispatch (PyVal.dict (some (PyVal.shape 0)) none none none)).1 rfl

/-- Claim C7: color resolution is case-insensitive for the known names
(any string whose lowercasing hits the table resolves to the table entry),
unknown strings — raw hex included — pass through unchanged, and None
resolves to None. -/
theorem resolve_color_behavior :
    resolve_color (some (r"BLUE")) = some (r"#4a90d9") ∧
    resolve_color (some (r"blue")) = some (r"#4a90d9") ∧
    resolve_color (some (r"#ff0000")) = some (r"#ff0000") ∧
    resolve_color none = none ∧
    (∀ s name hex : String, lowerStr s = name → dictGet COLORS name = some hex →
      resolve_color (some s) = some hex) ∧
    (∀ s : String, dictGet COLORS (lowerStr s) = none →
      resolve_color (some s) = some s) := by
  refine ⟨by decide, by decide, by decide, rfl, ?_, ?_⟩
  · intro s name hex h1 h2
    simp only [resolve_color]
    rw [h1, h2]
    rfl
  · intro s h
    simp only [resolve_color]
    rw [h]
    rfl

/-- Witness for C7: a mixed-case known name resolves through the table. -/
theorem resolve_color_behavior_witness :
    resolve_color (some (r"GrAy")) = some (r"#888888") :=
  resolve_color_behavior.2.2.2.2.1 (r"GrAy") (r"gray") (r"#888888")
    (by decide) (by decide)

/-- Claim C9 counterexample: in the freshly constructed widget the pending
buffer is None, not the empty sentinel payload; correspondingly, a
readiness signal arriving before any render transmits nothing (were the
buffer the sentinel payload, it would be transmitted). -/
theorem initial_pending_is_none :
    initWidget.pending ≠ some Payload.empty ∧
    initWidget.pending = none ∧
    (on_ready initWidget).2 = [] := by
  exact ⟨by decide, rfl, rfl⟩

/-- Claim C9 (amended): in the freshly constructed viewer connection the
readiness flag is false, the current payload (shapes_data) is the empty
sentinel, and the pending buffer is None. -/
theorem initial_state_shape :
    initWidget.ready = false ∧
    initWidget.shapes_data = Payload.empty ∧
    initWidget.pending = none := by
  exact ⟨rfl, rfl, rfl⟩

/-- The C10 invariant: once the consumer is ready, no payload is left in
the pending buffer. -/
def readyImpliesNoPending (st : WidgetState) : Prop :=
  st.ready = true → st.pending = none

/-- Claim C10: the invariant holds of the freshly constructed widget and is
preserved by set_shapes and by the custom-message handler (hence by the
readiness signal, which is the ready-typed message). -/
theorem ready_no_pending_invariant :
    readyImpliesNoPending initWidget ∧
    (∀ st data, readyImpliesNoPending st →
      readyImpliesNoPending (set_shapes st data).1) ∧
    (∀ st msg, readyImpliesNoPending st →
      readyImpliesNoPending (on_custom_msg st msg).1) := by
  refine ⟨fun _ => rfl, ?_, ?_⟩
  · intro st data hinv
    obtain ⟨sd, pd, rd⟩ := st
    cases rd
    · intro hcontra
      simp [set_shapes] at hcontra
    · intro _
      exact hinv rfl
  · intro st msg hinv
    obtain ⟨sd, pd, rd⟩ := st
    by_cases hm : msg = "ready"
    · cases pd <;> simp [on_custom_msg, hm, readyImpliesNoPending]
    · simp only [on_custom_msg, if_neg hm]
      exact hinv

/-- Witness for C10: after the readiness signal and a subsequent delivery,
the pending buffer is empty. -/
theorem ready_no_pending_invariant_witness :
    (set_shapes (on_ready initWidget).1 (Payload.parts [3])).1.pending = none := by
  have h1 : readyImpliesNoPending (on_ready initWidget).1 :=
    ready_no_pending_invariant.2.2 initWidget (r"ready") (fun _ => rfl)
  exact ready_no_pending_invariant.2.1 (on_ready initWidget).1 (Payload.parts [3]) h1 (by decide)

end MarimoCad
